import Mathlib

/-!
Shallow embedding of the renderer core in `src/gfx/render/mod.rs` (early
gfx-rs). The `Renderer` orchestrator, its cache, and all of its public
operations are translated from that file. The collaborator modules
`envir` and `mesh` (and `device::shade::ProgramMeta`) are not part of the
given sources; their data and the `optimize` operation are modelled from
the specification, while their field sets follow the uses visible in
`mod.rs` (`bind_mesh`, `bind_environment`, `create_mesh`).

Machine integers (`uint`, `u8`, `u16`, `u32`) are modelled as `Nat`: the
renderer only passes them through, never performs arithmetic where
overflow could matter. `f32` payloads are opaque to this layer (forwarded
verbatim to the executor), so they are represented by an opaque `Nat`
code. Fatal failures (`fail!`, `unwrap`, `unimplemented!`, out-of-bounds
cache access) are modelled by `Option`: `none` means the process aborts.
The device channel is modelled by an input list of pending replies and an
output trace of send/recv events.
-/

/-- Handle for a device buffer (`device::dev::Buffer`). -/
abbrev BufferHandle := Nat

/-- `pub type MeshHandle = uint`. -/
abbrev MeshHandle := Nat

/-- `pub type TextureHandle = device::dev::Texture`. -/
abbrev TextureHandle := Nat

/-- `pub type SamplerHandle = uint`. -/
abbrev SamplerHandle := Nat

/-- `pub type ProgramHandle = uint`. -/
abbrev ProgramHandle := Nat

/-- `pub type EnvirHandle = uint`. -/
abbrev EnvirHandle := Nat

/-- Opaque code for an `f32` payload: the renderer forwards float data
verbatim and never computes with it, so the representation is irrelevant. -/
abbrev F32 := Nat

/-- Opaque shader-input value (`device::shade::UniformValue`): carried
through unchanged, never inspected by the renderer. -/
abbrev UniformValue := Nat

/-- Opaque clear color payload. -/
abbrev Color := Nat

/-- Shader stage (`device::shade::{Vertex, Fragment}`). -/
inductive ShaderStage where
  | Vertex
  | Fragment
deriving DecidableEq, Repr

/-- One vertex attribute of a mesh (`mesh::Attribute`); the fields are
exactly the ones constructed in `Renderer::create_mesh` and read in
`Renderer::bind_mesh`. -/
structure Attribute where
  buffer : BufferHandle
  size : Nat
  offset : Nat
  stride : Nat
  is_normalized : Bool
  is_interpolated : Bool
  name : String
deriving DecidableEq, Repr

/-- Mesh descriptor (`mesh::Mesh`): a vertex count plus an ordered list of
attributes, per the uses in `mod.rs` and the spec data model. -/
structure Mesh where
  num_vertices : Nat
  attributes : List Attribute
deriving DecidableEq, Repr

/-- `mesh::Mesh::new(num_vert)`: a mesh with no attributes yet, as used by
`Renderer::create_mesh` before pushing the position attribute. -/
def Mesh.new (num_vert : Nat) : Mesh :=
  { num_vertices := num_vert, attributes := [] }

/-- Draw-range description (`mesh::Slice`), matched in `Renderer::draw`. -/
inductive Slice where
  | VertexSlice (start finish : Nat)
  | IndexSlice (buf : BufferHandle) (start finish : Nat)
deriving DecidableEq, Repr

/-- A vertex-attribute requirement of a program: name and slot
(`sat.name`, `sat.location` in `Renderer::bind_mesh`). -/
structure AttributeVar where
  name : String
  location : Nat
deriving DecidableEq, Repr

/-- A uniform-block requirement of a program. The source also carries a
per-block `active_slot` dedup cell; that interior-mutable cell never
affects which commands are emitted in this version, so it is not
modelled. -/
structure BlockVar where
  name : String
deriving DecidableEq, Repr

/-- A scalar/vector uniform requirement of a program: name and location
(`uniform_var.location` in `Renderer::bind_environment`); the
`active_value` dedup cell is likewise unmodelled. -/
structure UniformVar where
  name : String
  location : Nat
deriving DecidableEq, Repr

/-- A texture requirement of a program. -/
structure TextureVar where
  name : String
deriving DecidableEq, Repr

/-- Linked-program descriptor (`device::shade::ProgramMeta`): the
program's device name and its ordered requirement lists, per the uses in
`mod.rs` and the spec data model. -/
structure ProgramMeta where
  name : Nat
  attributes : List AttributeVar
  blocks : List BlockVar
  uniforms : List UniformVar
  textures : List TextureVar
deriving DecidableEq, Repr

/-- Modelled from the spec: `envir::Storage` is missing from the sources.
Three independent mappings, block bindings (name to buffer handle),
uniform values (name to value), texture bindings (name to texture and
sampler), each an association list keyed by name. -/
structure Storage where
  blocks : List (String × BufferHandle)
  uniforms : List (String × UniformValue)
  textures : List (String × (TextureHandle × SamplerHandle))
deriving DecidableEq, Repr

/-- Modelled from the spec: category of a shader-input variable, used by
the missing-variable error. -/
inductive VarCategory where
  | block
  | uniform
  | texture
deriving DecidableEq, Repr

/-- Modelled from the spec: `envir::OptimizationError`. -/
inductive OptimizationError where
  | MissingVariable (cat : VarCategory) (name : String)
deriving DecidableEq, Repr

/-- Modelled from the spec: `envir::Shortcut` holds, for each of the
program's required blocks, uniforms, and textures in declared order, the
key of the matching entry in the environment's mapping. -/
structure Shortcut where
  blocks : List Nat
  uniforms : List Nat
  textures : List Nat
deriving DecidableEq, Repr

/-- Index of the first entry with the given name in an association list. -/
def findKey (m : List (String × α)) (n : String) : Option Nat :=
  m.findIdx? (fun p => p.1 == n)

/-- Modelled from the spec: look up each required name in declared order;
stop at the first missing one with a `MissingVariable` error for the
given category. -/
def lookupKeys (m : List (String × α)) (cat : VarCategory) :
    List String → Except OptimizationError (List Nat)
  | [] => .ok []
  | n :: rest =>
    match findKey m n with
    | some k => (lookupKeys m cat rest).map (fun ks => k :: ks)
    | none => .error (.MissingVariable cat n)

/-- Modelled from the spec: `envir::Storage::optimize(program)`. For each
of the program's three requirement lists, in declared order, look up the
name in the corresponding environment mapping; fail atomically with
`MissingVariable(category, name)` if any name is absent. -/
def Storage.optimize (e : Storage) (p : ProgramMeta) :
    Except OptimizationError Shortcut := do
  let bs ← lookupKeys e.blocks .block (p.blocks.map (fun b => b.name))
  let us ← lookupKeys e.uniforms .uniform (p.uniforms.map (fun u => u.name))
  let ts ← lookupKeys e.textures .texture (p.textures.map (fun t => t.name))
  pure { blocks := bs, uniforms := us, textures := ts }

/-- Modelled from the spec: upsert into an association list, last write
wins. -/
def upsert : List (String × α) → String → α → List (String × α)
  | [], n, v => [(n, v)]
  | (k, w) :: rest, n, v =>
    if k == n then (k, v) :: rest else (k, w) :: upsert rest n v

/-- Modelled from the spec: `Storage::set_block(name, buffer)`. -/
def Storage.set_block (e : Storage) (n : String) (buf : BufferHandle) : Storage :=
  { e with blocks := upsert e.blocks n buf }

/-- Modelled from the spec: `Storage::set_uniform(name, value)`. -/
def Storage.set_uniform (e : Storage) (n : String) (v : UniformValue) : Storage :=
  { e with uniforms := upsert e.uniforms n v }

/-- Modelled from the spec: `Storage::set_texture(name, texture, sampler)`. -/
def Storage.set_texture (e : Storage) (n : String) (t : TextureHandle)
    (s : SamplerHandle) : Storage :=
  { e with textures := upsert e.textures n (t, s) }

/-- Modelled from the spec: `Storage::get_block(key)` indexes the block
mapping by shortcut key (total with a default; `optimize` only produces
in-range keys). -/
def Storage.get_block (e : Storage) (k : Nat) : BufferHandle :=
  (e.blocks.getD k ("", 0)).2

/-- Modelled from the spec: `Storage::get_uniform(key)`. -/
def Storage.get_uniform (e : Storage) (k : Nat) : UniformValue :=
  (e.uniforms.getD k ("", 0)).2

/-- Commands sent to the command executor (`device::Call*` synchronous
requests and `device::Cast*` fire-and-forget commands). -/
inductive Command where
  | CallNewArrayBuffer
  | CallNewShader (stage : ShaderStage) (src : List Nat)
  | CallNewProgram (shaders : List Nat)
  | CallNewVertexBuffer (data : List F32)
  | CallNewIndexBuffer (data : List Nat)
  | CallNewRawBuffer
  | CastClear (color : Color)
  | CastBindFrameBuffer (fbo : Nat)
  | CastBindArrayBuffer (ab : Nat)
  | CastBindProgram (name : Nat)
  | CastBindUniformBlock (prog : Nat) (slot : Nat) (buf_slot : Nat) (block : BufferHandle)
  | CastBindUniform (location : Nat) (value : UniformValue)
  | CastBindAttribute (slot : Nat) (buffer : BufferHandle) (size offset stride : Nat)
  | CastBindIndex (buf : BufferHandle)
  | CastDraw (start finish : Nat)
  | CastDrawIndexed (start finish : Nat)
  | CastUpdateBuffer (buf : BufferHandle) (data : List F32)
  | CastSwapBuffers
deriving DecidableEq, Repr

deriving instance DecidableEq for Except

/-- Replies received from the executor (`device::Reply*`). A failed link
is `ReplyNewProgram (.error ())`. -/
inductive Reply where
  | ReplyNewArrayBuffer (ab : Nat)
  | ReplyNewShader (name : Option Nat)
  | ReplyNewProgram (res : Except Unit ProgramMeta)
  | ReplyNewBuffer (name : BufferHandle)
deriving DecidableEq, Repr

/-- One interaction with the device channel: a command sent or a reply
received. -/
inductive Event where
  | send (c : Command)
  | recv (r : Reply)
deriving DecidableEq, Repr

/-- True for the synchronous creation requests (`device::Call*`), the
messages that expect a reply. -/
def Command.isRequest : Command → Bool
  | .CallNewArrayBuffer => true
  | .CallNewShader _ _ => true
  | .CallNewProgram _ => true
  | .CallNewVertexBuffer _ => true
  | .CallNewIndexBuffer _ => true
  | .CallNewRawBuffer => true
  | _ => false

/-- Running count of outstanding requests after each prefix of a trace:
a send of a request opens one, a recv closes one. -/
def outstandingCounts (t : List Event) : List Int :=
  t.scanl
    (fun n e =>
      match e with
      | .send c => if c.isRequest then n + 1 else n
      | .recv _ => n - 1)
    0

/-- Opaque output target (`target::Frame`); only its presence matters in
this core (`Some` hits `unimplemented!`). -/
inductive Frame where
  | mk
deriving DecidableEq, Repr

/-- `target::ClearData` as used by `Renderer::clear`: an optional clear
color (depth/stencil clearing is stubbed in this core). -/
structure ClearData where
  color : Option Color
deriving DecidableEq, Repr

/-- Temporary cache system before the handle manager (`struct Cache`). -/
structure Cache where
  meshes : List Mesh
  programs : List ProgramMeta
  environments : List Storage
deriving DecidableEq, Repr

/-- The renderer (`struct Renderer`). The `device: Client` channel is
modelled by the reply list each operation consumes and the event trace it
returns. -/
structure Renderer where
  common_array_buffer : Option Nat
  default_frame_buffer : Nat
  cache : Cache
deriving DecidableEq, Repr

/-- `Renderer::new(device)`. -/
def Renderer.new : Renderer :=
  { common_array_buffer := none,
    default_frame_buffer := 0,
    cache := { meshes := [], programs := [], environments := [] } }

/-- `Renderer::get_common_array_buffer`: return the cached shared array
buffer, or on first use send `CallNewArrayBuffer` and block for the
reply, caching the result; a mismatched reply is fatal (`fail!`). -/
def Renderer.get_common_array_buffer (r : Renderer) (replies : List Reply) :
    Option (Nat × Renderer × List Event × List Reply) :=
  match r.common_array_buffer with
  | some array_buffer => some (array_buffer, r, [], replies)
  | none =>
    match replies with
    | .ReplyNewArrayBuffer array_buffer :: rest =>
      some (array_buffer, { r with common_array_buffer := some array_buffer },
        [.send .CallNewArrayBuffer, .recv (.ReplyNewArrayBuffer array_buffer)], rest)
    | _ => none

/-- `Renderer::bind_frame`: a `Some` frame is `unimplemented!` (fatal);
`None` binds the default frame buffer. -/
def Renderer.bind_frame (r : Renderer) (frame : Option Frame) :
    Option (List Event) :=
  match frame with
  | some _ => none
  | none => some [.send (.CastBindFrameBuffer r.default_frame_buffer)]

/-- `Renderer::clear`: bind the target, then emit a clear command if a
color is given (`None` color is `unimplemented!`). -/
def Renderer.clear (r : Renderer) (data : ClearData) (frame : Option Frame) :
    Option (List Event) :=
  match r.bind_frame frame with
  | none => none
  | some ev =>
    match data.color with
    | some col => some (ev ++ [.send (.CastClear col)])
    | none => none

/-- The bind-attribute command `Renderer::bind_mesh` emits for one
program attribute requirement, when a mesh attribute of the same name is
found: the program's declared slot truncated to 8 bits (the
`sat.location as u8` wrapping cast) with the mesh attribute's buffer,
size, offset and stride (lossless `as u32` widenings of `u8` fields). -/
def bindAttributeCommand (mesh : Mesh) (sat : AttributeVar) : Option Command :=
  (mesh.attributes.find? (fun a => a.name == sat.name)).map
    (fun vat => .CastBindAttribute (sat.location % 256) vat.buffer vat.size
      vat.offset vat.stride)

/-- Loop of `Renderer::bind_mesh` over the program's attribute list:
emits one command per requirement until the first missing name, which
fails the whole bind (earlier commands stand: the stream is append-only). -/
def bindMeshGo (mesh : Mesh) : List AttributeVar → List Command × Bool
  | [] => ([], true)
  | sat :: rest =>
    match bindAttributeCommand mesh sat with
    | some c =>
      let (cs, ok) := bindMeshGo mesh rest
      (c :: cs, ok)
    | none => ([], false)

/-- `Renderer::bind_mesh(device, mesh, prog)`: the commands sent and
whether the bind succeeded (`Ok(())` vs `Err(())`). -/
def Renderer.bind_mesh (mesh : Mesh) (prog : ProgramMeta) : List Command × Bool :=
  bindMeshGo mesh prog.attributes

/-- `Renderer::bind_environment`: bind the program, then one
uniform-block bind per (shortcut, program) block pair with its position
truncated to 8 bits as slot and buffer slot (the `i as u8` and
`i as device::UniformBufferSlot` narrowing casts), then one uniform bind
per (shortcut, program) uniform pair; any
texture pair reaches `unimplemented!` (fatal). The
`debug_assert!(is_fit)` and the active-slot/value cell writes do not
affect the emitted commands and are not modelled. -/
def Renderer.bind_environment (storage : Storage) (shortcut : Shortcut)
    (program : ProgramMeta) : Option (List Command) :=
  if (shortcut.textures.zip program.textures).length ≠ 0 then none
  else
    some (.CastBindProgram program.name ::
      ((shortcut.blocks.zip program.blocks).enum.map
        (fun p => Command.CastBindUniformBlock program.name (p.1 % 256) (p.1 % 256)
          (storage.get_block p.2.1)))
      ++ (shortcut.uniforms.zip program.uniforms).map
        (fun p => Command.CastBindUniform p.2.location (storage.get_uniform p.1)))

/-- The command(s) the slice match at the end of `Renderer::draw` emits. -/
def Slice.commands : Slice → List Command
  | .VertexSlice start finish => [.CastDraw start finish]
  | .IndexSlice buf start finish =>
    [.CastBindIndex buf, .CastDrawIndexed start finish]

/-- `Renderer::draw`. Returns the updated renderer, the event trace, the
remaining replies, and the diagnostics logged (`error!`); `none` is a
fatal fault (out-of-range handle, `unimplemented!` path, failed `unwrap`
of `bind_mesh`, bad reply). On the fatal `bind_mesh` path the commands
already sent before the panic are dropped with the process. -/
def Renderer.draw (r : Renderer) (replies : List Reply) (mesh_handle : MeshHandle)
    (slice : Slice) (frame : Option Frame) (program_handle : ProgramHandle)
    (env_handle : EnvirHandle) :
    Option (Renderer × List Event × List Reply × List OptimizationError) := do
  let ev1 ← r.bind_frame frame
  let (array_buffer, r1, ev2, replies1) ← r.get_common_array_buffer replies
  let program ← r1.cache.programs[program_handle]?
  let env ← r1.cache.environments[env_handle]?
  match env.optimize program with
  | .error err => some (r1, ev1 ++ ev2, replies1, [err])
  | .ok cut => do
    let benv ← Renderer.bind_environment env cut program
    let mesh ← r1.cache.meshes[mesh_handle]?
    let (bm, ok) := Renderer.bind_mesh mesh program
    if ok then
      some (r1,
        ev1 ++ ev2 ++ benv.map .send
          ++ [.send (.CastBindArrayBuffer array_buffer)]
          ++ bm.map .send ++ slice.commands.map .send,
        replies1, [])
    else none

/-- `Renderer::end_frame`. -/
def Renderer.end_frame (_r : Renderer) : List Event :=
  [.send .CastSwapBuffers]

/-- `Renderer::create_program`: send both shader-compile requests, then
receive both replies (a compile failure yields `None`, replaced by the
sentinel name 0 via `unwrap_or(0)`), then send the link request; a
successful link is cached and its index returned, a failed link returns
the sentinel handle 0 without caching. Mismatched replies are fatal. -/
def Renderer.create_program (r : Renderer) (replies : List Reply)
    (vs_src fs_src : List Nat) :
    Option (ProgramHandle × Renderer × List Event × List Reply) :=
  match replies with
  | .ReplyNewShader n1 :: .ReplyNewShader n2 :: rest =>
    let h_vs := n1.getD 0
    let h_fs := n2.getD 0
    let ev : List Event :=
      [.send (.CallNewShader .Vertex vs_src),
       .send (.CallNewShader .Fragment fs_src),
       .recv (.ReplyNewShader n1),
       .recv (.ReplyNewShader n2),
       .send (.CallNewProgram [h_vs, h_fs])]
    match rest with
    | .ReplyNewProgram (.ok prog) :: rest2 =>
      some (r.cache.programs.length,
        { r with cache := { r.cache with programs := r.cache.programs ++ [prog] } },
        ev ++ [.recv (.ReplyNewProgram (.ok prog))], rest2)
    | .ReplyNewProgram (.error ()) :: rest2 =>
      some (0, r, ev ++ [.recv (.ReplyNewProgram (.error ()))], rest2)
    | _ => none
  | _ => none

/-- `Renderer::create_mesh`: upload the vertex data (one synchronous
request), build a mesh with exactly one `"a_Pos"` attribute of the given
component count and stride at offset 0, append it to the mesh cache and
return its index. -/
def Renderer.create_mesh (r : Renderer) (replies : List Reply) (num_vert : Nat)
    (data : List F32) (count stride : Nat) :
    Option (MeshHandle × Renderer × List Event × List Reply) :=
  match replies with
  | .ReplyNewBuffer buffer :: rest =>
    let mesh := { Mesh.new num_vert with
      attributes := [{ buffer := buffer, size := count, offset := 0,
                       stride := stride, is_normalized := false,
                       is_interpolated := false, name := "a_Pos" }] }
    let handle := r.cache.meshes.length
    some (handle,
      { r with cache := { r.cache with meshes := r.cache.meshes ++ [mesh] } },
      [.send (.CallNewVertexBuffer data), .recv (.ReplyNewBuffer buffer)], rest)
  | _ => none

/-- `Renderer::create_index_buffer`: one synchronous request. -/
def Renderer.create_index_buffer (_r : Renderer) (replies : List Reply)
    (data : List Nat) : Option (BufferHandle × List Event × List Reply) :=
  match replies with
  | .ReplyNewBuffer name :: rest =>
    some (name, [.send (.CallNewIndexBuffer data), .recv (.ReplyNewBuffer name)], rest)
  | _ => none

/-- `Renderer::create_raw_buffer`: one synchronous request. -/
def Renderer.create_raw_buffer (_r : Renderer) (replies : List Reply) :
    Option (BufferHandle × List Event × List Reply) :=
  match replies with
  | .ReplyNewBuffer name :: rest =>
    some (name, [.send .CallNewRawBuffer, .recv (.ReplyNewBuffer name)], rest)
  | _ => none

/-- `Renderer::create_environment`: append to the environment cache,
return the new index. -/
def Renderer.create_environment (r : Renderer) (storage : Storage) :
    EnvirHandle × Renderer :=
  (r.cache.environments.length,
   { r with cache :=
      { r.cache with environments := r.cache.environments ++ [storage] } })

/-- `Renderer::set_env_block` (out-of-range handle is fatal). -/
def Renderer.set_env_block (r : Renderer) (handle : EnvirHandle) (var : String)
    (buf : BufferHandle) : Option Renderer :=
  match r.cache.environments[handle]? with
  | some env => some { r with cache := { r.cache with
      environments := r.cache.environments.set handle (env.set_block var buf) } }
  | none => none

/-- `Renderer::set_env_uniform` (out-of-range handle is fatal). -/
def Renderer.set_env_uniform (r : Renderer) (handle : EnvirHandle) (var : String)
    (value : UniformValue) : Option Renderer :=
  match r.cache.environments[handle]? with
  | some env => some { r with cache := { r.cache with
      environments := r.cache.environments.set handle (env.set_uniform var value) } }
  | none => none

/-- `Renderer::set_env_texture` (out-of-range handle is fatal). -/
def Renderer.set_env_texture (r : Renderer) (handle : EnvirHandle) (var : String)
    (t : TextureHandle) (s : SamplerHandle) : Option Renderer :=
  match r.cache.environments[handle]? with
  | some env => some { r with cache := { r.cache with
      environments := r.cache.environments.set handle (env.set_texture var t s) } }
  | none => none

/-- `Renderer::update_buffer`: fire-and-forget. -/
def Renderer.update_buffer (buf : BufferHandle) (data : List F32) : List Event :=
  [.send (.CastUpdateBuffer buf data)]

/-- One public renderer operation with its arguments, for reasoning about
arbitrary call sequences. -/
inductive Op where
  | clear (data : ClearData) (frame : Option Frame)
  | draw (mesh_handle : MeshHandle) (slice : Slice) (frame : Option Frame)
      (program_handle : ProgramHandle) (env_handle : EnvirHandle)
  | end_frame
  | create_program (vs_src fs_src : List Nat)
  | create_mesh (num_vert : Nat) (data : List F32) (count stride : Nat)
  | create_index_buffer (data : List Nat)
  | create_raw_buffer
  | create_environment (storage : Storage)
  | set_env_block (handle : EnvirHandle) (var : String) (buf : BufferHandle)
  | set_env_uniform (handle : EnvirHandle) (var : String) (value : UniformValue)
  | set_env_texture (handle : EnvirHandle) (var : String) (t : TextureHandle)
      (s : SamplerHandle)
  | update_buffer (buf : BufferHandle) (data : List F32)

/-- Dispatch one operation on the renderer: the new renderer state, the
events emitted, and the replies left; `none` is a fatal fault. -/
def runOp (r : Renderer) (replies : List Reply) :
    Op → Option (Renderer × List Event × List Reply)
  | .clear d f => (r.clear d f).map (fun ev => (r, ev, replies))
  | .draw mh s f ph eh =>
    (r.draw replies mh s f ph eh).map (fun o => (o.1, o.2.1, o.2.2.1))
  | .end_frame => some (r, r.end_frame, replies)
  | .create_program vs fs =>
    (r.create_program replies vs fs).map (fun o => (o.2.1, o.2.2.1, o.2.2.2))
  | .create_mesh n d c s =>
    (r.create_mesh replies n d c s).map (fun o => (o.2.1, o.2.2.1, o.2.2.2))
  | .create_index_buffer d =>
    (r.create_index_buffer replies d).map (fun o => (r, o.2.1, o.2.2))
  | .create_raw_buffer =>
    (r.create_raw_buffer replies).map (fun o => (r, o.2.1, o.2.2))
  | .create_environment s => some ((r.create_environment s).2, [], replies)
  | .set_env_block h v b => (r.set_env_block h v b).map (fun r2 => (r2, [], replies))
  | .set_env_uniform h v val =>
    (r.set_env_uniform h v val).map (fun r2 => (r2, [], replies))
  | .set_env_texture h v t s =>
    (r.set_env_texture h v t s).map (fun r2 => (r2, [], replies))
  | .update_buffer b d => some (r, Renderer.update_buffer b d, replies)

/-- Run a sequence of operations, concatenating the emitted traces; a
fatal fault stops the run (flag `false`). -/
def runOps : Renderer → List Reply → List Op → Renderer × List Event × Bool
  | r, _, [] => (r, [], true)
  | r, replies, op :: ops =>
    match runOp r replies op with
    | none => (r, [], false)
    | some (r2, ev, replies2) =>
      let (r3, ev2, ok) := runOps r2 replies2 ops
      (r3, ev ++ ev2, ok)

/-- Number of `CallNewArrayBuffer` requests in a trace. -/
def countArrayBufferRequests (t : List Event) : Nat :=
  t.countP (fun e =>
    match e with
    | .send .CallNewArrayBuffer => true
    | _ => false)

/-- Sample program: one attribute `"a_Pos"` at slot 2, one uniform
`"u_Color"` at location 4, no blocks or textures. -/
def progSample : ProgramMeta :=
  { name := 7, attributes := [{ name := "a_Pos", location := 2 }], blocks := [],
    uniforms := [{ name := "u_Color", location := 4 }], textures := [] }

/-- Sample environment with no bindings at all. -/
def envEmpty : Storage := { blocks := [], uniforms := [], textures := [] }

/-- Sample environment binding `"u_Color"`. -/
def envFull : Storage := { blocks := [], uniforms := [("u_Color", 42)], textures := [] }

/-- Sample mesh attribute: buffer 9, 3 components, stride 12, named
`"a_Pos"`. -/
def attrPos : Attribute :=
  { buffer := 9, size := 3, offset := 0, stride := 12,
    is_normalized := false, is_interpolated := false, name := "a_Pos" }

/-- Sample triangle mesh. -/
def meshTri : Mesh := { num_vertices := 3, attributes := [attrPos] }

/-- Sample renderer state: array buffer already cached, one mesh, one
program, the empty environment at handle 0 and the full one at handle 1. -/
def rendSample : Renderer :=
  { common_array_buffer := some 5, default_frame_buffer := 0,
    cache := { meshes := [meshTri], programs := [progSample],
               environments := [envEmpty, envFull] } }

/-- C5: a `create_program` call whose link request fails returns the
sentinel handle 0 and leaves the renderer (in particular the program
cache) unchanged. -/
theorem create_program_link_fail_returns_sentinel (r : Renderer)
    (vs_src fs_src : List Nat) (n1 n2 : Option Nat) (rest : List Reply) :
    r.create_program
        (.ReplyNewShader n1 :: .ReplyNewShader n2 ::
          .ReplyNewProgram (.error ()) :: rest) vs_src fs_src =
      some (0, r,
        [.send (.CallNewShader .Vertex vs_src),
         .send (.CallNewShader .Fragment fs_src),
         .recv (.ReplyNewShader n1),
         .recv (.ReplyNewShader n2),
         .send (.CallNewProgram [n1.getD 0, n2.getD 0]),
         .recv (.ReplyNewProgram (.error ()))], rest) := by
  rfl

/-- The position attribute `create_mesh` builds for the uploaded buffer:
component count and stride as given, offset 0, name `"a_Pos"`. -/
def posAttribute (buffer : BufferHandle) (count stride : Nat) : Attribute :=
  { buffer := buffer, size := count, offset := 0, stride := stride,
    is_normalized := false, is_interpolated := false, name := "a_Pos" }

/-- The single-attribute mesh `create_mesh` builds. -/
def posMesh (num_vert : Nat) (buffer : BufferHandle) (count stride : Nat) : Mesh :=
  { num_vertices := num_vert, attributes := [posAttribute buffer count stride] }

/-- C8: `create_mesh` appends exactly one mesh, carrying exactly one
`"a_Pos"` attribute with the given component count and stride at offset
0, and returns the previous cache length as handle. -/
theorem create_mesh_appends_one (r : Renderer) (num_vert : Nat) (data : List F32)
    (count stride : Nat) (buffer : BufferHandle) (rest : List Reply) :
    r.create_mesh (.ReplyNewBuffer buffer :: rest) num_vert data count stride =
      some (r.cache.meshes.length,
        { r with cache := { r.cache with
            meshes := r.cache.meshes ++ [posMesh num_vert buffer count stride] } },
        [.send (.CallNewVertexBuffer data), .recv (.ReplyNewBuffer buffer)], rest) ∧
    (r.cache.meshes ++ [posMesh num_vert buffer count stride]).length =
      r.cache.meshes.length + 1 ∧
    (posMesh num_vert buffer count stride).attributes =
      [posAttribute buffer count stride] := by
  refine ⟨rfl, ?_, rfl⟩
  simp

/-- C9: with an empty program cache, a successful link returns handle 0,
the same value every failed link returns, so handle 0 is ambiguous. -/
theorem create_program_handle_zero_ambiguous :
    (∀ (ab : Option Nat) (fb : Nat) (ms : List Mesh) (es : List Storage)
       (vs fs : List Nat) (n1 n2 : Option Nat) (prog : ProgramMeta)
       (rest : List Reply),
       ((Renderer.mk ab fb (Cache.mk ms [] es)).create_program
           (.ReplyNewShader n1 :: .ReplyNewShader n2 ::
             .ReplyNewProgram (.ok prog) :: rest) vs fs).map (fun o => o.1) =
         some 0) ∧
    (∀ (r : Renderer) (vs fs : List Nat) (n1 n2 : Option Nat) (rest : List Reply),
       (r.create_program (.ReplyNewShader n1 :: .ReplyNewShader n2 ::
           .ReplyNewProgram (.error ()) :: rest) vs fs).map (fun o => o.1) =
         some 0) := by
  constructor
  · intro ab fb ms es vs fs n1 n2 prog rest
    rfl
  · intro r vs fs n1 n2 rest
    rfl

/-- C10: a shader-compile reply reporting failure (`ReplyNewShader none`)
does not abort `create_program`: the call still completes (for either
link outcome) and the link request carries the sentinel name 0 in place
of the failed shader. -/
theorem create_program_shader_fail_sentinel :
    (∀ (r : Renderer) (vs fs : List Nat) (k : Nat) (res : Except Unit ProgramMeta)
       (rest : List Reply),
       ∃ out, r.create_program (.ReplyNewShader none :: .ReplyNewShader (some k) ::
           .ReplyNewProgram res :: rest) vs fs = some out ∧
         Event.send (.CallNewProgram [0, k]) ∈ out.2.2.1) ∧
    (∀ (r : Renderer) (vs fs : List Nat) (k : Nat) (res : Except Unit ProgramMeta)
       (rest : List Reply),
       ∃ out, r.create_program (.ReplyNewShader (some k) :: .ReplyNewShader none ::
           .ReplyNewProgram res :: rest) vs fs = some out ∧
         Event.send (.CallNewProgram [k, 0]) ∈ out.2.2.1) := by
  constructor
  · intro r vs fs k res rest
    match res with
    | .ok prog => exact ⟨_, rfl, by simp [Renderer.create_program]⟩
    | .error () => exact ⟨_, rfl, by simp [Renderer.create_program]⟩
  · intro r vs fs k res rest
    match res with
    | .ok prog => exact ⟨_, rfl, by simp [Renderer.create_program]⟩
    | .error () => exact ⟨_, rfl, by simp [Renderer.create_program]⟩

/-- A bind-attribute command exists for a requirement exactly when the
mesh has an attribute of the same name. -/
lemma bindAttributeCommand_isSome (mesh : Mesh) (sat : AttributeVar) :
    (bindAttributeCommand mesh sat).isSome ↔
      ∃ a ∈ mesh.attributes, a.name = sat.name := by
  simp [bindAttributeCommand, List.find?_isSome]

/-- The bind-mesh loop succeeds exactly when every required attribute
name occurs in the mesh. -/
lemma bindMeshGo_ok_iff (mesh : Mesh) (ats : List AttributeVar) :
    (bindMeshGo mesh ats).2 = true ↔
      ∀ sat ∈ ats, ∃ a ∈ mesh.attributes, a.name = sat.name := by
  induction ats with
  | nil => simp [bindMeshGo]
  | cons sat rest ih =>
    cases hc : bindAttributeCommand mesh sat with
    | none =>
      have hn : ¬ ∃ a ∈ mesh.attributes, a.name = sat.name := by
        rw [← bindAttributeCommand_isSome, hc]
        simp
      simp [bindMeshGo, hc, hn]
    | some c =>
      have hs : ∃ a ∈ mesh.attributes, a.name = sat.name := by
        rw [← bindAttributeCommand_isSome, hc]
        simp
      simp [bindMeshGo, hc, ih, hs]

/-- On success, the bind-mesh loop emits one command per requirement, in
order, built from a mesh attribute of the matching name. -/
lemma bindMeshGo_ok_forall2 (mesh : Mesh) (ats : List AttributeVar) :
    (bindMeshGo mesh ats).2 = true →
      List.Forall₂
        (fun sat c => ∃ vat ∈ mesh.attributes, vat.name = sat.name ∧
          c = Command.CastBindAttribute (sat.location % 256) vat.buffer vat.size
            vat.offset vat.stride)
        ats (bindMeshGo mesh ats).1 := by
  induction ats with
  | nil =>
    intro _
    simp [bindMeshGo]
  | cons sat rest ih =>
    cases hc : bindAttributeCommand mesh sat with
    | none => simp [bindMeshGo, hc]
    | some c =>
      intro h
      have h2 : (bindMeshGo mesh rest).2 = true := by
        simpa [bindMeshGo, hc] using h
      have hcs : (bindMeshGo mesh (sat :: rest)).1 = c :: (bindMeshGo mesh rest).1 := by
        simp [bindMeshGo, hc]
      rw [hcs]
      refine List.Forall₂.cons ?_ (ih h2)
      obtain ⟨vat, hfind, hmap⟩ := Option.map_eq_some'.mp hc
      refine ⟨vat, List.mem_of_find?_eq_some hfind, ?_, hmap.symm⟩
      have := List.find?_some hfind
      simpa using this

/-- C3 (amended): `bind_mesh(M, P)` succeeds exactly when every
attribute name `P` declares occurs in `M`; on success the emitted
commands correspond 1:1 and in order to `P`'s declared attribute list,
each carrying the declared slot truncated to 8 bits (the `as u8` cast)
and the matching mesh attribute's buffer, size, offset and stride. -/
theorem bind_mesh_spec (mesh : Mesh) (prog : ProgramMeta) :
    ((Renderer.bind_mesh mesh prog).2 = true ↔
      ∀ sat ∈ prog.attributes, ∃ a ∈ mesh.attributes, a.name = sat.name) ∧
    ((Renderer.bind_mesh mesh prog).2 = true →
      List.Forall₂
        (fun sat c => ∃ vat ∈ mesh.attributes, vat.name = sat.name ∧
          c = Command.CastBindAttribute (sat.location % 256) vat.buffer vat.size
            vat.offset vat.stride)
        prog.attributes (Renderer.bind_mesh mesh prog).1) :=
  ⟨bindMeshGo_ok_iff mesh prog.attributes, bindMeshGo_ok_forall2 mesh prog.attributes⟩

/-- Witness for C3 at the sample mesh and program. -/
theorem bind_mesh_spec_witness :
    (Renderer.bind_mesh meshTri progSample).2 = true ∧
    List.Forall₂
      (fun sat c => ∃ vat ∈ meshTri.attributes, vat.name = sat.name ∧
        c = Command.CastBindAttribute (sat.location % 256) vat.buffer vat.size
          vat.offset vat.stride)
      progSample.attributes (Renderer.bind_mesh meshTri progSample).1 :=
  ⟨by decide, (bind_mesh_spec meshTri progSample).2 (by decide)⟩

/-- Sample program declaring attribute `"a_Pos"` at slot 256, a value the
`as u8` cast in `bind_mesh` wraps to 0. -/
def progWideSlot : ProgramMeta :=
  { name := 7, attributes := [{ name := "a_Pos", location := 256 }], blocks := [],
    uniforms := [], textures := [] }

/-- Counterexample to C3 as stated: binding the sample mesh against a
program declaring attribute slot 256 succeeds, but the one emitted
command carries slot 0 (the declared slot truncated by the `as u8`
cast), not the declared slot 256. -/
theorem bind_mesh_slot_truncation_counterexample :
    (Renderer.bind_mesh meshTri progWideSlot).2 = true ∧
    (Renderer.bind_mesh meshTri progWideSlot).1 =
      [Command.CastBindAttribute 0 9 3 0 12] ∧
    progWideSlot.attributes = [{ name := "a_Pos", location := 256 }] ∧
    (0 : Nat) ≠ 256 := by
  exact ⟨by decide, by decide, rfl, by decide⟩

/-- A successful lookup collects, in order, the key of each required
name. -/
lemma lookupKeys_ok_forall2 {α : Type} (m : List (String × α)) (cat : VarCategory) :
    ∀ {names : List String} {ks : List Nat}, lookupKeys m cat names = .ok ks →
      List.Forall₂ (fun n k => findKey m n = some k) names ks := by
  intro names
  induction names with
  | nil =>
    intro ks h
    simp [lookupKeys] at h
    subst h
    exact .nil
  | cons n rest ih =>
    intro ks h
    cases hf : findKey m n with
    | none => simp [lookupKeys, hf] at h
    | some k =>
      cases hr : lookupKeys m cat rest with
      | error e => simp [lookupKeys, hf, hr, Except.map] at h
      | ok ks2 =>
        simp [lookupKeys, hf, hr, Except.map] at h
        subst h
        exact .cons hf (ih hr)

/-- A failed lookup reports the requested category and a required name
genuinely absent from the mapping. -/
lemma lookupKeys_error_missing {α : Type} (m : List (String × α)) (cat : VarCategory) :
    ∀ {names : List String} {c : VarCategory} {n : String},
      lookupKeys m cat names = .error (.MissingVariable c n) →
      c = cat ∧ n ∈ names ∧ findKey m n = none := by
  intro names
  induction names with
  | nil =>
    intro c n h
    simp [lookupKeys] at h
  | cons n0 rest ih =>
    intro c n h
    cases hf : findKey m n0 with
    | none =>
      simp [lookupKeys, hf] at h
      obtain ⟨hc, hn⟩ := h
      subst hc
      subst hn
      exact ⟨rfl, by simp, hf⟩
    | some k =>
      cases hr : lookupKeys m cat rest with
      | error e =>
        simp [lookupKeys, hf, hr, Except.map] at h
        subst h
        obtain ⟨hc, hn, hk⟩ := ih hr
        exact ⟨hc, by simp [hn], hk⟩
      | ok ks2 => simp [lookupKeys, hf, hr, Except.map] at h

/-- C2: `optimize(E, P)` either succeeds with three shortcut lists that
pair, in declared order (hence with equal lengths), every declared
block/uniform/texture name with its key in the corresponding mapping of
`E`, or fails with a `MissingVariable` error whose category and name
identify a name `P` declares in that category that is absent from `E`;
so it succeeds exactly when `E` contains every declared name, and no
partial shortcut exists on failure. -/
theorem optimize_spec (e : Storage) (p : ProgramMeta) :
    match e.optimize p with
    | .ok cut =>
      List.Forall₂ (fun b k => findKey e.blocks b.name = some k) p.blocks cut.blocks ∧
      List.Forall₂ (fun u k => findKey e.uniforms u.name = some k) p.uniforms
        cut.uniforms ∧
      List.Forall₂ (fun t k => findKey e.textures t.name = some k) p.textures
        cut.textures ∧
      cut.blocks.length = p.blocks.length ∧
      cut.uniforms.length = p.uniforms.length ∧
      cut.textures.length = p.textures.length
    | .error (.MissingVariable cat n) =>
      (cat = .block ∧ n ∈ p.blocks.map BlockVar.name ∧ findKey e.blocks n = none) ∨
      (cat = .uniform ∧ n ∈ p.uniforms.map UniformVar.name ∧
        findKey e.uniforms n = none) ∨
      (cat = .texture ∧ n ∈ p.textures.map TextureVar.name ∧
        findKey e.textures n = none) := by
  cases hb : lookupKeys e.blocks .block (p.blocks.map (fun b => b.name)) with
  | error eb =>
    obtain ⟨cb, nb⟩ := eb
    have hm := lookupKeys_error_missing e.blocks .block hb
    simp only [Storage.optimize, hb, Except.bind]
    exact Or.inl ⟨hm.1, hm.2.1, hm.2.2⟩
  | ok bs =>
    cases hu : lookupKeys e.uniforms .uniform (p.uniforms.map (fun u => u.name)) with
    | error eu =>
      obtain ⟨cu, nu⟩ := eu
      have hm := lookupKeys_error_missing e.uniforms .uniform hu
      simp only [Storage.optimize, hb, hu, Except.bind]
      exact Or.inr (Or.inl ⟨hm.1, hm.2.1, hm.2.2⟩)
    | ok us =>
      cases ht : lookupKeys e.textures .texture (p.textures.map (fun t => t.name)) with
      | error et =>
        obtain ⟨ct, nt⟩ := et
        have hm := lookupKeys_error_missing e.textures .texture ht
        simp only [Storage.optimize, hb, hu, ht, Except.bind]
        exact Or.inr (Or.inr ⟨hm.1, hm.2.1, hm.2.2⟩)
      | ok ts =>
        have f2b := List.forall₂_map_left_iff.mp (lookupKeys_ok_forall2 e.blocks .block hb)
        have f2u :=
          List.forall₂_map_left_iff.mp (lookupKeys_ok_forall2 e.uniforms .uniform hu)
        have f2t :=
          List.forall₂_map_left_iff.mp (lookupKeys_ok_forall2 e.textures .texture ht)
        simp only [Storage.optimize, hb, hu, ht, Except.bind, pure]
        refine ⟨f2b, f2u, f2t, ?_, ?_, ?_⟩
        · simpa using f2b.length_eq.symm
        · simpa using f2u.length_eq.symm
        · simpa using f2t.length_eq.symm

/-- True for the bind-family and draw-family executor commands (the
command vocabulary of the spec: bind-frame-buffer, bind-array-buffer,
bind-program, bind-uniform-block, bind-uniform, bind-attribute,
bind-index, draw, draw-indexed). -/
def isBindOrDrawCommand : Command → Bool
  | .CastBindFrameBuffer _ => true
  | .CastBindArrayBuffer _ => true
  | .CastBindProgram _ => true
  | .CastBindUniformBlock _ _ _ _ => true
  | .CastBindUniform _ _ => true
  | .CastBindAttribute _ _ _ _ _ => true
  | .CastBindIndex _ => true
  | .CastDraw _ _ => true
  | .CastDrawIndexed _ _ => true
  | _ => false

/-- Number of bind/draw commands sent in a trace. -/
def countBindOrDraw (t : List Event) : Nat :=
  t.countP (fun e =>
    match e with
    | .send c => isBindOrDrawCommand c
    | .recv _ => false)

/-- True for the commands the slice match of `draw` can emit: draw,
indexed draw, and bind-index. -/
def isSliceCommand : Command → Bool
  | .CastDraw _ _ => true
  | .CastDrawIndexed _ _ => true
  | .CastBindIndex _ => true
  | _ => false

/-- Number of slice-family commands sent in a trace. -/
def countSliceEvents (t : List Event) : Nat :=
  t.countP (fun e =>
    match e with
    | .send c => isSliceCommand c
    | .recv _ => false)

/-- A successful `get_common_array_buffer` either hits the cache (no
events) or performs the first-use creation round trip and caches the
result. -/
lemma get_common_array_buffer_cases (r : Renderer) (replies : List Reply)
    (ab : Nat) (r1 : Renderer) (ev : List Event) (replies1 : List Reply)
    (h : r.get_common_array_buffer replies = some (ab, r1, ev, replies1)) :
    (r.common_array_buffer = some ab ∧ r1 = r ∧ ev = [] ∧ replies1 = replies) ∨
    (r.common_array_buffer = none ∧
      r1 = { r with common_array_buffer := some ab } ∧
      ev = [.send .CallNewArrayBuffer, .recv (.ReplyNewArrayBuffer ab)] ∧
      replies = .ReplyNewArrayBuffer ab :: replies1) := by
  cases hc : r.common_array_buffer with
  | some ab0 =>
    left
    simp [Renderer.get_common_array_buffer, hc] at h
    obtain ⟨h1, h2, h3, h4⟩ := h
    subst h1
    exact ⟨rfl, h2.symm, h3, h4.symm⟩
  | none =>
    right
    match replies with
    | [] => simp [Renderer.get_common_array_buffer, hc] at h
    | .ReplyNewArrayBuffer ab1 :: rest =>
      simp [Renderer.get_common_array_buffer, hc] at h
      obtain ⟨h1, h2, h3, h4⟩ := h
      subst h1
      exact ⟨rfl, h2.symm, h3.symm, by rw [h4]⟩
    | .ReplyNewShader n :: rest => simp [Renderer.get_common_array_buffer, hc] at h
    | .ReplyNewProgram res :: rest => simp [Renderer.get_common_array_buffer, hc] at h
    | .ReplyNewBuffer n :: rest => simp [Renderer.get_common_array_buffer, hc] at h

/-- Every command `bind_environment` emits is a program, uniform-block,
or uniform bind. -/
lemma bind_environment_shape (s : Storage) (cut : Shortcut) (p : ProgramMeta)
    (l : List Command) (h : Renderer.bind_environment s cut p = some l) :
    ∀ c ∈ l, (∃ n, c = .CastBindProgram n) ∨
      (∃ a b d e, c = .CastBindUniformBlock a b d e) ∨
      (∃ a b, c = .CastBindUniform a b) := by
  unfold Renderer.bind_environment at h
  split at h
  · exact absurd h (by simp)
  · intro c hc
    rw [Option.some.injEq] at h
    subst h
    rcases List.mem_cons.mp hc with hc | hc
    · exact Or.inl ⟨p.name, hc⟩
    rcases List.mem_append.mp hc with hc | hc
    · obtain ⟨q, _, hq⟩ := List.mem_map.mp hc
      exact Or.inr (Or.inl ⟨_, _, _, _, hq.symm⟩)
    · obtain ⟨q, _, hq⟩ := List.mem_map.mp hc
      exact Or.inr (Or.inr ⟨_, _, hq.symm⟩)

/-- Every command the bind-mesh loop emits is a bind-attribute. -/
lemma bindMeshGo_shape (mesh : Mesh) (ats : List AttributeVar) :
    ∀ c ∈ (bindMeshGo mesh ats).1, ∃ a b d e f, c = .CastBindAttribute a b d e f := by
  induction ats with
  | nil => simp [bindMeshGo]
  | cons sat rest ih =>
    cases hc : bindAttributeCommand mesh sat with
    | none => simp [bindMeshGo, hc]
    | some c0 =>
      intro c hmem
      simp only [bindMeshGo, hc] at hmem
      rcases List.mem_cons.mp hmem with h | h
      · subst h
        obtain ⟨vat, _, hmap⟩ := Option.map_eq_some'.mp hc
        exact ⟨_, _, _, _, _, hmap.symm⟩
      · exact ih c h

/-- Counterexample to C1 as stated: with the sample renderer, a program
requiring uniform `"u_Color"` and the empty environment, `draw` fails
optimization and logs one diagnostic, yet its trace contains one bind
command (the default frame-buffer bind sent before optimization), not
zero. -/
theorem draw_optimize_fail_counterexample :
    rendSample.draw [] 0 (Slice.VertexSlice 0 3) none 0 0 =
      some (rendSample, [Event.send (Command.CastBindFrameBuffer 0)], [],
        [OptimizationError.MissingVariable VarCategory.uniform "u_Color"]) ∧
    countBindOrDraw [Event.send (Command.CastBindFrameBuffer 0)] = 1 := by
  exact ⟨by decide, by decide⟩

/-- C1 (amended): when environment optimization fails, `draw` logs
exactly one diagnostic and returns non-fatally; by then it has emitted
only the default frame-buffer bind (plus, on first use, the array-buffer
creation round trip, which contains no bind or draw command), and it
emits no further bind or draw command for that call. -/
theorem draw_optimize_fail_skips (r : Renderer) (replies : List Reply)
    (mh : MeshHandle) (slice : Slice) (ph : ProgramHandle) (eh : EnvirHandle)
    (ab : Nat) (r1 : Renderer) (ev2 : List Event) (replies1 : List Reply)
    (p : ProgramMeta) (env : Storage) (err : OptimizationError)
    (hab : r.get_common_array_buffer replies = some (ab, r1, ev2, replies1))
    (hp : r1.cache.programs[ph]? = some p)
    (he : r1.cache.environments[eh]? = some env)
    (hopt : env.optimize p = .error err) :
    r.draw replies mh slice none ph eh =
      some (r1,
        Event.send (Command.CastBindFrameBuffer r.default_frame_buffer) :: ev2,
        replies1, [err]) ∧
    countBindOrDraw ev2 = 0 := by
  constructor
  · simp [Renderer.draw, Renderer.bind_frame, hab, hp, he, hopt]
  · rcases get_common_array_buffer_cases r replies ab r1 ev2 replies1 hab with
      ⟨_, _, hev, _⟩ | ⟨_, _, hev, _⟩ <;> subst hev <;> rfl

/-- Witness for the amended C1 at the sample renderer. -/
theorem draw_optimize_fail_skips_witness :
    rendSample.draw [] 0 (Slice.VertexSlice 0 3) none 0 0 =
      some (rendSample, [Event.send (Command.CastBindFrameBuffer 0)], [],
        [OptimizationError.MissingVariable VarCategory.uniform "u_Color"]) ∧
    countBindOrDraw [] = 0 :=
  draw_optimize_fail_skips rendSample [] 0 (Slice.VertexSlice 0 3) 0 0 5 rendSample []
    [] progSample envEmpty (OptimizationError.MissingVariable VarCategory.uniform
      "u_Color") (by rfl) (by rfl) (by rfl) (by decide)

/-- C4: a successful `draw` emits the slice commands last: a vertex-range
slice contributes exactly one draw command and no bind-index command, and
an indexed slice contributes exactly one bind-index command immediately
followed by one indexed-draw command, with the same start and end; no
other part of the trace contains a draw, indexed-draw, or bind-index
command. -/
theorem draw_slice_commands (r : Renderer) (replies : List Reply)
    (mh : MeshHandle) (slice : Slice) (ph : ProgramHandle) (eh : EnvirHandle)
    (ab : Nat) (r1 : Renderer) (ev2 : List Event) (replies1 : List Reply)
    (p : ProgramMeta) (env : Storage) (cut : Shortcut) (benv : List Command)
    (mesh : Mesh) (bm : List Command)
    (hab : r.get_common_array_buffer replies = some (ab, r1, ev2, replies1))
    (hp : r1.cache.programs[ph]? = some p)
    (he : r1.cache.environments[eh]? = some env)
    (hopt : env.optimize p = .ok cut)
    (hbe : Renderer.bind_environment env cut p = some benv)
    (hm : r1.cache.meshes[mh]? = some mesh)
    (hbm : Renderer.bind_mesh mesh p = (bm, true)) :
    ∃ pre, countSliceEvents pre = 0 ∧
      r.draw replies mh slice none ph eh =
        some (r1, pre ++ slice.commands.map Event.send, replies1, []) ∧
      (∀ s f, slice = .VertexSlice s f →
        slice.commands = [.CastDraw s f]) ∧
      (∀ b s f, slice = .IndexSlice b s f →
        slice.commands = [.CastBindIndex b, .CastDrawIndexed s f]) := by
  have hbm1 : (Renderer.bind_mesh mesh p).1 = bm := by rw [hbm]
  refine ⟨[Event.send (Command.CastBindFrameBuffer r.default_frame_buffer)] ++ ev2 ++
    benv.map .send ++ [Event.send (Command.CastBindArrayBuffer ab)] ++ bm.map .send,
    ?_, ?_, ?_, ?_⟩
  · have hz2 : countSliceEvents ev2 = 0 := by
      rcases get_common_array_buffer_cases r replies ab r1 ev2 replies1 hab with
        ⟨_, _, hev, _⟩ | ⟨_, _, hev, _⟩ <;> subst hev <;> rfl
    have hzb : countSliceEvents (benv.map .send) = 0 := by
      simp only [countSliceEvents, List.countP_map]
      refine List.countP_eq_zero.mpr ?_
      intro c hc
      rcases bind_environment_shape env cut p benv hbe c hc with
        ⟨n, rfl⟩ | ⟨a, b, d, e, rfl⟩ | ⟨a, b, rfl⟩ <;>
        simp [Function.comp, isSliceCommand]
    have hzm : countSliceEvents (bm.map .send) = 0 := by
      simp only [countSliceEvents, List.countP_map]
      refine List.countP_eq_zero.mpr ?_
      intro c hc
      rw [← hbm1] at hc
      rcases bindMeshGo_shape mesh p.attributes c hc with ⟨a, b, d, e, f, rfl⟩
      simp [Function.comp, isSliceCommand]
    have happ : ∀ x y : List Event,
        countSliceEvents (x ++ y) = countSliceEvents x + countSliceEvents y :=
      fun x y => List.countP_append _ x y
    have h1 : countSliceEvents
        [Event.send (Command.CastBindFrameBuffer r.default_frame_buffer)] = 0 := rfl
    have h4 : countSliceEvents [Event.send (Command.CastBindArrayBuffer ab)] = 0 := rfl
    simp only [happ, h1, h4, hz2, hzb, hzm]
  · simp [Renderer.draw, Renderer.bind_frame, hab, hp, he, hopt, hbe, hm, hbm]
  · intro s f hs
    subst hs
    rfl
  · intro b s f hs
    subst hs
    rfl

/-- Witness for C4 at the sample renderer, drawing with the full
environment and a vertex slice. -/
theorem draw_slice_commands_witness :
    ∃ pre, countSliceEvents pre = 0 ∧
      rendSample.draw [] 0 (Slice.VertexSlice 0 3) none 0 1 =
        some (rendSample, pre ++ (Slice.VertexSlice 0 3).commands.map Event.send,
          [], []) ∧
      (∀ s f, Slice.VertexSlice 0 3 = .VertexSlice s f →
        (Slice.VertexSlice 0 3).commands = [.CastDraw s f]) ∧
      (∀ b s f, Slice.VertexSlice 0 3 = .IndexSlice b s f →
        (Slice.VertexSlice 0 3).commands = [.CastBindIndex b, .CastDrawIndexed s f]) :=
  draw_slice_commands rendSample [] 0 (Slice.VertexSlice 0 3) 0 1 5 rendSample [] []
    progSample envFull { blocks := [], uniforms := [0], textures := [] }
    [.CastBindProgram 7, .CastBindUniform 4 42] meshTri
    [.CastBindAttribute 2 9 3 0 12]
    (by rfl) (by rfl) (by rfl) (by decide) (by rfl) (by rfl) (by decide)

/-- Counterexample to C6 as stated: in `create_program` both
shader-compile requests are sent before either reply is received, so
after the second send two creation requests are outstanding, not at most
one. -/
theorem create_program_pipelines_counterexample :
    ((Renderer.new.create_program
        [.ReplyNewShader (some 3), .ReplyNewShader (some 4),
         .ReplyNewProgram (.error ())] [1] [2]).map
      (fun o => outstandingCounts o.2.2.1)) = some [0, 1, 2, 1, 0, 1, 0] ∧
    (2 : Int) ∈ [(0 : Int), 1, 2, 1, 0, 1, 0] := by
  exact ⟨by decide, by decide⟩

/-- A single send-then-recv round trip never has more than one request
outstanding. -/
lemma outstandingCounts_single_round (c : Command) (rp : Reply)
    (hc : c.isRequest = true) :
    ∀ x ∈ outstandingCounts [.send c, .recv rp], x ≤ 1 := by
  intro x hx
  simp [outstandingCounts, List.scanl, hc] at hx
  rcases hx with rfl | rfl | rfl <;> omega

/-- The `create_program` trace never has more than two requests
outstanding. -/
lemma outstandingCounts_create_program_trace (vs fs hs : List Nat)
    (n1 n2 : Option Nat) (rp : Reply) :
    ∀ x ∈ outstandingCounts
      [.send (.CallNewShader .Vertex vs), .send (.CallNewShader .Fragment fs),
       .recv (.ReplyNewShader n1), .recv (.ReplyNewShader n2),
       .send (.CallNewProgram hs), .recv rp], x ≤ 2 := by
  intro x hx
  simp [outstandingCounts, List.scanl, Command.isRequest] at hx
  rcases hx with rfl | rfl | rfl | rfl | rfl | rfl | rfl <;> omega

/-- C6 (amended): every creation operation except `create_program` sends
one request and immediately blocks for its reply, so at most one request
is ever outstanding; `create_program` pipelines its two shader-compile
requests before receiving, so at most two are outstanding there (and the
link request is again sent only after both replies arrive). -/
theorem creation_requests_bounded :
    (∀ (r : Renderer) (replies : List Reply) (d : List Nat)
       (out : BufferHandle × List Event × List Reply),
       r.create_index_buffer replies d = some out →
       ∀ x ∈ outstandingCounts out.2.1, x ≤ 1) ∧
    (∀ (r : Renderer) (replies : List Reply)
       (out : BufferHandle × List Event × List Reply),
       r.create_raw_buffer replies = some out →
       ∀ x ∈ outstandingCounts out.2.1, x ≤ 1) ∧
    (∀ (r : Renderer) (replies : List Reply) (n : Nat) (d : List F32) (c s : Nat)
       (out : MeshHandle × Renderer × List Event × List Reply),
       r.create_mesh replies n d c s = some out →
       ∀ x ∈ outstandingCounts out.2.2.1, x ≤ 1) ∧
    (∀ (r : Renderer) (replies : List Reply)
       (out : Nat × Renderer × List Event × List Reply),
       r.get_common_array_buffer replies = some out →
       ∀ x ∈ outstandingCounts out.2.2.1, x ≤ 1) ∧
    (∀ (r : Renderer) (replies : List Reply) (vs fs : List Nat)
       (out : ProgramHandle × Renderer × List Event × List Reply),
       r.create_program replies vs fs = some out →
       ∀ x ∈ outstandingCounts out.2.2.1, x ≤ 2) := by
  refine ⟨?_, ?_, ?_, ?_, ?_⟩
  · intro r replies d out h
    cases replies with
    | nil => simp [Renderer.create_index_buffer] at h
    | cons rp rest =>
      cases rp with
      | ReplyNewBuffer n =>
        simp [Renderer.create_index_buffer] at h
        subst h
        exact outstandingCounts_single_round _ _ rfl
      | ReplyNewArrayBuffer a => simp [Renderer.create_index_buffer] at h
      | ReplyNewShader a => simp [Renderer.create_index_buffer] at h
      | ReplyNewProgram a => simp [Renderer.create_index_buffer] at h
  · intro r replies out h
    cases replies with
    | nil => simp [Renderer.create_raw_buffer] at h
    | cons rp rest =>
      cases rp with
      | ReplyNewBuffer n =>
        simp [Renderer.create_raw_buffer] at h
        subst h
        exact outstandingCounts_single_round _ _ rfl
      | ReplyNewArrayBuffer a => simp [Renderer.create_raw_buffer] at h
      | ReplyNewShader a => simp [Renderer.create_raw_buffer] at h
      | ReplyNewProgram a => simp [Renderer.create_raw_buffer] at h
  · intro r replies n d c s out h
    cases replies with
    | nil => simp [Renderer.create_mesh] at h
    | cons rp rest =>
      cases rp with
      | ReplyNewBuffer bn =>
        simp [Renderer.create_mesh] at h
        subst h
        exact outstandingCounts_single_round _ _ rfl
      | ReplyNewArrayBuffer a => simp [Renderer.create_mesh] at h
      | ReplyNewShader a => simp [Renderer.create_mesh] at h
      | ReplyNewProgram a => simp [Renderer.create_mesh] at h
  · intro r replies out h
    obtain ⟨ab, r1, ev, replies1⟩ := out
    rcases get_common_array_buffer_cases r replies ab r1 ev replies1 h with
      ⟨_, _, hev, _⟩ | ⟨_, _, hev, _⟩ <;> subst hev
    · intro x hx
      simp [outstandingCounts, List.scanl] at hx
      omega
    · exact outstandingCounts_single_round _ _ rfl
  · intro r replies vs fs out h
    cases replies with
    | nil => simp [Renderer.create_program] at h
    | cons r1p rest1 =>
      cases r1p with
      | ReplyNewShader n1 =>
        cases rest1 with
        | nil => simp [Renderer.create_program] at h
        | cons r2p rest2 =>
          cases r2p with
          | ReplyNewShader n2 =>
            cases rest2 with
            | nil => simp [Renderer.create_program] at h
            | cons r3p rest3 =>
              cases r3p with
              | ReplyNewProgram res =>
                cases res with
                | ok prog =>
                  simp [Renderer.create_program] at h
                  subst h
                  exact outstandingCounts_create_program_trace vs fs _ n1 n2 _
                | error u =>
                  cases u
                  simp [Renderer.create_program] at h
                  subst h
                  exact outstandingCounts_create_program_trace vs fs _ n1 n2 _
              | ReplyNewArrayBuffer a => simp [Renderer.create_program] at h
              | ReplyNewShader a => simp [Renderer.create_program] at h
              | ReplyNewBuffer a => simp [Renderer.create_program] at h
          | ReplyNewArrayBuffer a => simp [Renderer.create_program] at h
          | ReplyNewProgram a => simp [Renderer.create_program] at h
          | ReplyNewBuffer a => simp [Renderer.create_program] at h
      | ReplyNewArrayBuffer a => simp [Renderer.create_program] at h
      | ReplyNewProgram a => simp [Renderer.create_program] at h
      | ReplyNewBuffer a => simp [Renderer.create_program] at h

/-- Witness for the amended C6 at concrete creation calls. -/
theorem creation_requests_bounded_witness :
    (∀ x ∈ outstandingCounts
      [Event.send (Command.CallNewIndexBuffer [1, 2]),
       Event.recv (Reply.ReplyNewBuffer 3)], x ≤ 1) ∧
    (∀ x ∈ outstandingCounts
      [Event.send Command.CallNewRawBuffer,
       Event.recv (Reply.ReplyNewBuffer 4)], x ≤ 1) ∧
    (∀ x ∈ outstandingCounts
      [Event.send (Command.CallNewVertexBuffer [0]),
       Event.recv (Reply.ReplyNewBuffer 9)], x ≤ 1) ∧
    (∀ x ∈ outstandingCounts
      [Event.send Command.CallNewArrayBuffer,
       Event.recv (Reply.ReplyNewArrayBuffer 5)], x ≤ 1) ∧
    (∀ x ∈ outstandingCounts
      [Event.send (Command.CallNewShader .Vertex [1]),
       Event.send (Command.CallNewShader .Fragment [2]),
       Event.recv (Reply.ReplyNewShader (some 3)),
       Event.recv (Reply.ReplyNewShader (some 4)),
       Event.send (Command.CallNewProgram [3, 4]),
       Event.recv (Reply.ReplyNewProgram (.error ()))], x ≤ 2) :=
  ⟨creation_requests_bounded.1 Renderer.new [.ReplyNewBuffer 3] [1, 2] _ rfl,
   creation_requests_bounded.2.1 Renderer.new [.ReplyNewBuffer 4] _ rfl,
   creation_requests_bounded.2.2.1 Renderer.new [.ReplyNewBuffer 9] 3 [0] 3 12 _ rfl,
   creation_requests_bounded.2.2.2.1 Renderer.new [.ReplyNewArrayBuffer 5] _ rfl,
   creation_requests_bounded.2.2.2.2 Renderer.new
     [.ReplyNewShader (some 3), .ReplyNewShader (some 4),
      .ReplyNewProgram (.error ())] [1] [2] _ rfl⟩

/-- 1 when the shared array buffer is already cached, else 0. -/
def abFlag (r : Renderer) : Nat :=
  if r.common_array_buffer.isSome then 1 else 0

/-- A trace of sends of non-creation commands contains no array-buffer
request. -/
lemma countAB_map_send_of (l : List Command)
    (h : ∀ c ∈ l, c ≠ Command.CallNewArrayBuffer) :
    countArrayBufferRequests (l.map .send) = 0 := by
  simp only [countArrayBufferRequests, List.countP_map]
  refine List.countP_eq_zero.mpr ?_
  intro c hc
  have hne := h c hc
  cases c <;> simp_all [Function.comp]

/-- The slice commands contain no array-buffer request. -/
lemma countAB_slice (slice : Slice) :
    countArrayBufferRequests (slice.commands.map .send) = 0 := by
  cases slice <;> rfl

/-- A successful `get_common_array_buffer` accounts for exactly one
array-buffer creation over the renderer's lifetime: its trace count plus
the incoming cache flag equals 1, and afterwards the flag is 1. -/
lemma get_common_array_buffer_abFlag (r : Renderer) (replies : List Reply)
    (ab : Nat) (r1 : Renderer) (ev2 : List Event) (replies1 : List Reply)
    (h : r.get_common_array_buffer replies = some (ab, r1, ev2, replies1)) :
    countArrayBufferRequests ev2 + abFlag r = 1 ∧ abFlag r1 = 1 := by
  rcases get_common_array_buffer_cases r replies ab r1 ev2 replies1 h with
    ⟨hc, hr, hev, _⟩ | ⟨hc, hr, hev, _⟩
  · subst hev
    subst hr
    constructor
    · simp [countArrayBufferRequests, abFlag, hc]
    · simp [abFlag, hc]
  · subst hev
    subst hr
    constructor
    · have h1 : countArrayBufferRequests
          [Event.send Command.CallNewArrayBuffer,
           Event.recv (Reply.ReplyNewArrayBuffer ab)] = 1 := rfl
      simp [h1, abFlag, hc]
    · simp [abFlag]

/-- A successful `draw` sends an array-buffer creation request only via
`get_common_array_buffer`, so its trace count plus the incoming cache
flag is bounded by the outgoing flag. -/
lemma draw_abFlag (r : Renderer) (replies : List Reply) (mh : MeshHandle)
    (slice : Slice) (frame : Option Frame) (ph : ProgramHandle) (eh : EnvirHandle)
    (r2 : Renderer) (ev : List Event) (replies2 : List Reply)
    (logs : List OptimizationError)
    (h : r.draw replies mh slice frame ph eh = some (r2, ev, replies2, logs)) :
    countArrayBufferRequests ev + abFlag r ≤ abFlag r2 := by
  cases frame with
  | some fr => simp [Renderer.draw, Renderer.bind_frame] at h
  | none =>
    cases hge : r.get_common_array_buffer replies with
    | none => simp [Renderer.draw, Renderer.bind_frame, hge] at h
    | some o =>
      obtain ⟨ab, r1, ev2, replies1⟩ := o
      obtain ⟨hcount, hflag⟩ :=
        get_common_array_buffer_abFlag r replies ab r1 ev2 replies1 hge
      cases hp : r1.cache.programs[ph]? with
      | none => simp [Renderer.draw, Renderer.bind_frame, hge, hp] at h
      | some program =>
        cases he : r1.cache.environments[eh]? with
        | none => simp [Renderer.draw, Renderer.bind_frame, hge, hp, he] at h
        | some env =>
          cases hopt : env.optimize program with
          | error err =>
            simp [Renderer.draw, Renderer.bind_frame, hge, hp, he, hopt] at h
            obtain ⟨h1, h2, h3, h4⟩ := h
            subst h1
            have hev : countArrayBufferRequests ev = countArrayBufferRequests ev2 := by
              rw [← h2]
              rfl
            omega
          | ok cut =>
            cases hbe : Renderer.bind_environment env cut program with
            | none =>
              simp [Renderer.draw, Renderer.bind_frame, hge, hp, he, hopt, hbe] at h
            | some benv =>
              cases hm : r1.cache.meshes[mh]? with
              | none =>
                simp [Renderer.draw, Renderer.bind_frame, hge, hp, he, hopt, hbe,
                  hm] at h
              | some mesh =>
                rcases hbm : Renderer.bind_mesh mesh program with ⟨bm, ok⟩
                cases ok with
                | false =>
                  simp [Renderer.draw, Renderer.bind_frame, hge, hp, he, hopt, hbe,
                    hm, hbm] at h
                | true =>
                  simp [Renderer.draw, Renderer.bind_frame, hge, hp, he, hopt, hbe,
                    hm, hbm] at h
                  obtain ⟨h1, h2, h3, h4⟩ := h
                  subst h1
                  have hzb : countArrayBufferRequests (benv.map .send) = 0 := by
                    refine countAB_map_send_of benv ?_
                    intro c hc
                    rcases bind_environment_shape env cut program benv hbe c hc with
                      ⟨n, rfl⟩ | ⟨a, b, d, e, rfl⟩ | ⟨a, b, rfl⟩ <;> simp
                  have hzm : countArrayBufferRequests (bm.map .send) = 0 := by
                    refine countAB_map_send_of bm ?_
                    intro c hc
                    have hbm1 : (Renderer.bind_mesh mesh program).1 = bm := by
                      rw [hbm]
                    rw [← hbm1] at hc
                    rcases bindMeshGo_shape mesh program.attributes c hc with
                      ⟨a, b, d, e, f, rfl⟩
                    simp
                  have hev : countArrayBufferRequests ev = countArrayBufferRequests ev2 := by
                    rw [← h2]
                    have hframe : countArrayBufferRequests
                        [Event.send (Command.CastBindFrameBuffer
                          r.default_frame_buffer)] = 0 := rfl
                    have hcast : countArrayBufferRequests
                        [Event.send (Command.CastBindArrayBuffer ab)] = 0 := rfl
                    have hs := countAB_slice slice
                    show countArrayBufferRequests
                      ([Event.send (Command.CastBindFrameBuffer
                          r.default_frame_buffer)] ++
                        (ev2 ++ (benv.map .send ++
                          ([Event.send (Command.CastBindArrayBuffer ab)] ++
                            (bm.map .send ++ slice.commands.map .send))))) = _
                    simp only [countArrayBufferRequests,
                      List.countP_append] at hframe hcast hs hzb hzm ⊢
                    omega
                  omega

/-- `clear` sends no creation request. -/
lemma clear_countAB (r : Renderer) (d : ClearData) (f : Option Frame)
    (ev : List Event) (h : r.clear d f = some ev) :
    countArrayBufferRequests ev = 0 := by
  cases f with
  | some fr => simp [Renderer.clear, Renderer.bind_frame] at h
  | none =>
    cases hcol : d.color with
    | none => simp [Renderer.clear, Renderer.bind_frame, hcol] at h
    | some col =>
      simp [Renderer.clear, Renderer.bind_frame, hcol] at h
      rw [← h]
      rfl

/-- Any single successful operation sends at most the one first-use
array-buffer request, recorded in the cache flag. -/
lemma runOp_abFlag (r : Renderer) (replies : List Reply) (op : Op)
    (r2 : Renderer) (ev : List Event) (replies2 : List Reply)
    (h : runOp r replies op = some (r2, ev, replies2)) :
    countArrayBufferRequests ev + abFlag r ≤ abFlag r2 := by
  cases op with
  | clear d f =>
    obtain ⟨ev0, hc, hm⟩ := Option.map_eq_some'.mp h
    simp only [Prod.mk.injEq] at hm
    obtain ⟨hr2, hev, hrp⟩ := hm
    have hcz : countArrayBufferRequests ev = 0 := by
      rw [← hev]
      exact clear_countAB r d f ev0 hc
    have hfl : abFlag r2 = abFlag r := by rw [← hr2]
    omega
  | draw mh s f ph eh =>
    obtain ⟨o, hd, hm⟩ := Option.map_eq_some'.mp h
    obtain ⟨ro, evo, rpo, logso⟩ := o
    simp only [Prod.mk.injEq] at hm
    obtain ⟨hr2, hev, hrp⟩ := hm
    rw [← hr2, ← hev]
    exact draw_abFlag r replies mh s f ph eh ro evo rpo logso hd
  | end_frame =>
    simp only [runOp, Option.some.injEq, Prod.mk.injEq] at h
    obtain ⟨hr2, hev, hrp⟩ := h
    have hcz : countArrayBufferRequests ev = 0 := by
      rw [← hev]
      rfl
    have hfl : abFlag r2 = abFlag r := by rw [← hr2]
    omega
  | create_program vs fs =>
    obtain ⟨o, hcp, hm⟩ := Option.map_eq_some'.mp h
    simp only [Prod.mk.injEq] at hm
    obtain ⟨hr2, hev, hrp⟩ := hm
    cases replies with
    | nil => simp [Renderer.create_program] at hcp
    | cons r1p rest1 =>
      cases r1p with
      | ReplyNewShader n1 =>
        cases rest1 with
        | nil => simp [Renderer.create_program] at hcp
        | cons r2p rest2 =>
          cases r2p with
          | ReplyNewShader n2 =>
            cases rest2 with
            | nil => simp [Renderer.create_program] at hcp
            | cons r3p rest3 =>
              cases r3p with
              | ReplyNewProgram res =>
                cases res with
                | ok prog =>
                  simp [Renderer.create_program] at hcp
                  rw [← hcp] at hr2 hev
                  have hcz : countArrayBufferRequests ev = 0 := by
                    rw [← hev]
                    rfl
                  have hfl : abFlag r2 = abFlag r := by
                    rw [← hr2]
                    rfl
                  omega
                | error u =>
                  cases u
                  simp [Renderer.create_program] at hcp
                  rw [← hcp] at hr2 hev
                  have hcz : countArrayBufferRequests ev = 0 := by
                    rw [← hev]
                    rfl
                  have hfl : abFlag r2 = abFlag r := by
                    rw [← hr2]
                  omega
              | ReplyNewArrayBuffer a => simp [Renderer.create_program] at hcp
              | ReplyNewShader a => simp [Renderer.create_program] at hcp
              | ReplyNewBuffer a => simp [Renderer.create_program] at hcp
          | ReplyNewArrayBuffer a => simp [Renderer.create_program] at hcp
          | ReplyNewProgram a => simp [Renderer.create_program] at hcp
          | ReplyNewBuffer a => simp [Renderer.create_program] at hcp
      | ReplyNewArrayBuffer a => simp [Renderer.create_program] at hcp
      | ReplyNewProgram a => simp [Renderer.create_program] at hcp
      | ReplyNewBuffer a => simp [Renderer.create_program] at hcp
  | create_mesh n d c s =>
    obtain ⟨o, hcm, hm⟩ := Option.map_eq_some'.mp h
    simp only [Prod.mk.injEq] at hm
    obtain ⟨hr2, hev, hrp⟩ := hm
    cases replies with
    | nil => simp [Renderer.create_mesh] at hcm
    | cons rp rest =>
      cases rp with
      | ReplyNewBuffer bn =>
        simp [Renderer.create_mesh] at hcm
        rw [← hcm] at hr2 hev
        have hcz : countArrayBufferRequests ev = 0 := by
          rw [← hev]
          rfl
        have hfl : abFlag r2 = abFlag r := by
          rw [← hr2]
          rfl
        omega
      | ReplyNewArrayBuffer a => simp [Renderer.create_mesh] at hcm
      | ReplyNewShader a => simp [Renderer.create_mesh] at hcm
      | ReplyNewProgram a => simp [Renderer.create_mesh] at hcm
  | create_index_buffer d =>
    obtain ⟨o, hci, hm⟩ := Option.map_eq_some'.mp h
    simp only [Prod.mk.injEq] at hm
    obtain ⟨hr2, hev, hrp⟩ := hm
    cases replies with
    | nil => simp [Renderer.create_index_buffer] at hci
    | cons rp rest =>
      cases rp with
      | ReplyNewBuffer bn =>
        simp [Renderer.create_index_buffer] at hci
        rw [← hci] at hev
        have hcz : countArrayBufferRequests ev = 0 := by
          rw [← hev]
          rfl
        have hfl : abFlag r2 = abFlag r := by rw [← hr2]
        omega
      | ReplyNewArrayBuffer a => simp [Renderer.create_index_buffer] at hci
      | ReplyNewShader a => simp [Renderer.create_index_buffer] at hci
      | ReplyNewProgram a => simp [Renderer.create_index_buffer] at hci
  | create_raw_buffer =>
    obtain ⟨o, hcr, hm⟩ := Option.map_eq_some'.mp h
    simp only [Prod.mk.injEq] at hm
    obtain ⟨hr2, hev, hrp⟩ := hm
    cases replies with
    | nil => simp [Renderer.create_raw_buffer] at hcr
    | cons rp rest =>
      cases rp with
      | ReplyNewBuffer bn =>
        simp [Renderer.create_raw_buffer] at hcr
        rw [← hcr] at hev
        have hcz : countArrayBufferRequests ev = 0 := by
          rw [← hev]
          rfl
        have hfl : abFlag r2 = abFlag r := by rw [← hr2]
        omega
      | ReplyNewArrayBuffer a => simp [Renderer.create_raw_buffer] at hcr
      | ReplyNewShader a => simp [Renderer.create_raw_buffer] at hcr
      | ReplyNewProgram a => simp [Renderer.create_raw_buffer] at hcr
  | create_environment s =>
    simp only [runOp, Option.some.injEq, Prod.mk.injEq] at h
    obtain ⟨hr2, hev, hrp⟩ := h
    have hcz : countArrayBufferRequests ev = 0 := by
      rw [← hev]
      rfl
    have hfl : abFlag r2 = abFlag r := by
      rw [← hr2]
      rfl
    omega
  | set_env_block hd v b =>
    obtain ⟨r0, hse, hm⟩ := Option.map_eq_some'.mp h
    simp only [Prod.mk.injEq] at hm
    obtain ⟨hr2, hev, hrp⟩ := hm
    cases henv : r.cache.environments[hd]? with
    | none => simp [Renderer.set_env_block, henv] at hse
    | some env =>
      simp [Renderer.set_env_block, henv] at hse
      have hcz : countArrayBufferRequests ev = 0 := by
        rw [← hev]
        rfl
      have hfl : abFlag r2 = abFlag r := by
        rw [← hr2, ← hse]
        rfl
      omega
  | set_env_uniform hd v vl =>
    obtain ⟨r0, hse, hm⟩ := Option.map_eq_some'.mp h
    simp only [Prod.mk.injEq] at hm
    obtain ⟨hr2, hev, hrp⟩ := hm
    cases henv : r.cache.environments[hd]? with
    | none => simp [Renderer.set_env_uniform, henv] at hse
    | some env =>
      simp [Renderer.set_env_uniform, henv] at hse
      have hcz : countArrayBufferRequests ev = 0 := by
        rw [← hev]
        rfl
      have hfl : abFlag r2 = abFlag r := by
        rw [← hr2, ← hse]
        rfl
      omega
  | set_env_texture hd v t s =>
    obtain ⟨r0, hse, hm⟩ := Option.map_eq_some'.mp h
    simp only [Prod.mk.injEq] at hm
    obtain ⟨hr2, hev, hrp⟩ := hm
    cases henv : r.cache.environments[hd]? with
    | none => simp [Renderer.set_env_texture, henv] at hse
    | some env =>
      simp [Renderer.set_env_texture, henv] at hse
      have hcz : countArrayBufferRequests ev = 0 := by
        rw [← hev]
        rfl
      have hfl : abFlag r2 = abFlag r := by
        rw [← hr2, ← hse]
        rfl
      omega
  | update_buffer b d =>
    simp only [runOp, Option.some.injEq, Prod.mk.injEq] at h
    obtain ⟨hr2, hev, hrp⟩ := h
    have hcz : countArrayBufferRequests ev = 0 := by
      rw [← hev]
      rfl
    have hfl : abFlag r2 = abFlag r := by rw [← hr2]
    omega

/-- Over any run, the total number of array-buffer requests plus the
incoming cache flag stays at most 1. -/
lemma runOps_abFlag (ops : List Op) :
    ∀ (r : Renderer) (replies : List Reply),
      countArrayBufferRequests (runOps r replies ops).2.1 + abFlag r ≤ 1 := by
  induction ops with
  | nil =>
    intro r replies
    have h0 : countArrayBufferRequests (runOps r replies []).2.1 = 0 := rfl
    rw [h0]
    dsimp [abFlag]
    split <;> omega
  | cons op ops ih =>
    intro r replies
    cases hro : runOp r replies op with
    | none =>
      have htr : (runOps r replies (op :: ops)).2.1 = [] := by
        simp [runOps, hro]
      rw [htr]
      have h0 : countArrayBufferRequests ([] : List Event) = 0 := rfl
      rw [h0]
      dsimp [abFlag]
      split <;> omega
    | some o =>
      obtain ⟨r2, ev, replies2⟩ := o
      rcases hrec : runOps r2 replies2 ops with ⟨r3, ev2, ok⟩
      have htr : (runOps r replies (op :: ops)).2.1 = ev ++ ev2 := by
        simp [runOps, hro, hrec]
      rw [htr]
      have h1 := runOp_abFlag r replies op r2 ev replies2 hro
      have h2 := ih r2 replies2
      rw [hrec] at h2
      have happ : countArrayBufferRequests (ev ++ ev2) =
          countArrayBufferRequests ev + countArrayBufferRequests ev2 :=
        List.countP_append _ _ _
      simp only [] at h2
      omega

/-- C7: over any operation sequence started from a fresh renderer, the
new-array-buffer request is sent to the executor at most once; and once
the shared array buffer is cached, `get_common_array_buffer` returns the
cached value with no device interaction at all. -/
theorem array_buffer_created_once :
    (∀ (ops : List Op) (replies : List Reply),
       countArrayBufferRequests (runOps Renderer.new replies ops).2.1 ≤ 1) ∧
    (∀ (ab fb : Nat) (cache : Cache) (replies : List Reply),
       Renderer.get_common_array_buffer
           { common_array_buffer := some ab, default_frame_buffer := fb,
             cache := cache } replies =
         some (ab,
           { common_array_buffer := some ab, default_frame_buffer := fb,
             cache := cache }, [], replies)) := by
  constructor
  · intro ops replies
    have h := runOps_abFlag ops Renderer.new replies
    have h0 : abFlag Renderer.new = 0 := rfl
    omega
  · intro ab fb cache replies
    rfl
